import Mathlib

set_option maxRecDepth 100000

/-!
Verification of the example admission and retrieval engine
(`api/models/example.py`): the legacy SHA-1 signature scheme
(`ExampleModel.verify_signature`), the admission flow (`ExampleModel.create`)
and the two retrieval queries (`getRandom`, `getRandomFiltered`).

Machine integers are modelled as `Nat` with explicit reduction modulo 2^32
where the SHA-1 compression function overflows.  Bytes are `Nat` values
below 256.
-/

/-! ## Bytes and UTF-8 encoding (model of Python `str.encode("utf-8")`) -/

/-- UTF-8 encoding of a single Unicode code point, as a list of byte values.
Mirrors the standard encoding used by Python `str.encode("utf-8")`. -/
def utf8Enc (c : Nat) : List Nat :=
  if c < 0x80 then [c]
  else if c < 0x800 then
    [0xC0 ||| (c >>> 6), 0x80 ||| (c &&& 0x3F)]
  else if c < 0x10000 then
    [0xE0 ||| (c >>> 12), 0x80 ||| ((c >>> 6) &&& 0x3F), 0x80 ||| (c &&& 0x3F)]
  else
    [0xF0 ||| (c >>> 18), 0x80 ||| ((c >>> 12) &&& 0x3F),
     0x80 ||| ((c >>> 6) &&& 0x3F), 0x80 ||| (c &&& 0x3F)]

/-- UTF-8 bytes of a string, the model of `s.encode("utf-8")`. -/
def strBytes (s : String) : List Nat :=
  s.data.foldr (fun c acc => utf8Enc c.toNat ++ acc) []

/-! ## SHA-1 (model of `hashlib.sha1`) -/

/-- Reduce to a 32-bit word. -/
def w32 (n : Nat) : Nat := n % 4294967296

/-- Left rotation of a 32-bit word by `k` bits (argument assumed < 2^32). -/
def rotl32 (k n : Nat) : Nat := ((n <<< k) % 4294967296) ||| (n >>> (32 - k))

/-- Big-endian 4-byte rendering of a 32-bit word. -/
def be4 (n : Nat) : List Nat :=
  [(n >>> 24) % 256, (n >>> 16) % 256, (n >>> 8) % 256, n % 256]

/-- Big-endian 8-byte rendering of a 64-bit value (the bit-length field of
SHA-1 padding). -/
def be8 (n : Nat) : List Nat :=
  [(n >>> 56) % 256, (n >>> 48) % 256, (n >>> 40) % 256, (n >>> 32) % 256,
   (n >>> 24) % 256, (n >>> 16) % 256, (n >>> 8) % 256, n % 256]

/-- SHA-1 message padding: append `0x80`, zero bytes to 56 mod 64, then the
message length in bits as a 64-bit big-endian value. -/
def sha1pad (msg : List Nat) : List Nat :=
  msg ++ [0x80] ++ List.replicate ((119 - msg.length % 64) % 64) 0
      ++ be8 (8 * msg.length)

/-- Group a byte list into big-endian 32-bit words. -/
def toWords : List Nat → List Nat
  | b0 :: b1 :: b2 :: b3 :: rest =>
      (((b0 * 256 + b1) * 256 + b2) * 256 + b3) :: toWords rest
  | _ => []

/-- Fuel-indexed helper grouping a list into 64-byte chunks. -/
def chunksAux : Nat → List Nat → List (List Nat)
  | 0, _ => []
  | _, [] => []
  | fuel + 1, msg => msg.take 64 :: chunksAux fuel (msg.drop 64)

/-- Group a byte list into 64-byte chunks. -/
def chunks64 (msg : List Nat) : List (List Nat) := chunksAux msg.length msg

/-- The 80-entry SHA-1 message schedule of one 64-byte block. -/
def sha1Words (blk : List Nat) : Array Nat :=
  (List.range 64).foldl
    (fun w j =>
      let i := j + 16
      w.push (rotl32 1
        (Nat.xor (Nat.xor (w.getD (i - 3) 0) (w.getD (i - 8) 0))
                 (Nat.xor (w.getD (i - 14) 0) (w.getD (i - 16) 0)))))
    (toWords blk).toArray

/-- SHA-1 state: five 32-bit words. -/
structure Sha1State where
  a : Nat
  b : Nat
  c : Nat
  d : Nat
  e : Nat

/-- One round of the SHA-1 compression function. -/
def sha1Round (st : Sha1State) (i wi : Nat) : Sha1State :=
  let f :=
    if i < 20 then (st.b &&& st.c) ||| ((st.b ^^^ 0xFFFFFFFF) &&& st.d)
    else if i < 40 then st.b ^^^ st.c ^^^ st.d
    else if i < 60 then (st.b &&& st.c) ||| (st.b &&& st.d) ||| (st.c &&& st.d)
    else st.b ^^^ st.c ^^^ st.d
  let k :=
    if i < 20 then 0x5A827999
    else if i < 40 then 0x6ED9EBA1
    else if i < 60 then 0x8F1BBCDC
    else 0xCA62C1D6
  { a := w32 (rotl32 5 st.a + f + st.e + k + wi)
    b := st.a
    c := rotl32 30 st.b
    d := st.c
    e := st.d }

/-- Process one 64-byte block. -/
def sha1Block (h : Sha1State) (blk : List Nat) : Sha1State :=
  let ws := sha1Words blk
  let st := (List.range 80).foldl (fun st i => sha1Round st i (ws.getD i 0)) h
  { a := w32 (h.a + st.a), b := w32 (h.b + st.b), c := w32 (h.c + st.c),
    d := w32 (h.d + st.d), e := w32 (h.e + st.e) }

/-- The SHA-1 initialisation vector. -/
def sha1Init : Sha1State :=
  { a := 0x67452301, b := 0xEFCDAB89, c := 0x98BADCFE,
    d := 0x10325476, e := 0xC3D2E1F0 }

/-- SHA-1 digest of a byte list, as 20 bytes. -/
def sha1Bytes (msg : List Nat) : List Nat :=
  let h := (chunks64 (sha1pad msg)).foldl sha1Block sha1Init
  be4 h.a ++ be4 h.b ++ be4 h.c ++ be4 h.d ++ be4 h.e

/-- Lowercase hexadecimal digit. -/
def hexDigit (n : Nat) : Char :=
  if n < 10 then Char.ofNat (48 + n) else Char.ofNat (87 + n)

/-- Two-digit lowercase hexadecimal rendering of one byte. -/
def byteHex (b : Nat) : String :=
  String.mk [hexDigit (b / 16), hexDigit (b % 16)]

/-- Lowercase hex digest of a byte list, the model of
`hashlib.sha1(...).hexdigest()`. -/
def sha1Hex (msg : List Nat) : String :=
  String.join ((sha1Bytes msg).map byteHex)

/-- Sanity check of the SHA-1 model against the standard test vector. -/
theorem sha1Hex_abc :
    sha1Hex (strBytes "abc") = "a9993e364706816aba3e25717850c26c9cd0d89d" := by
  rfl

/-! ## JSON values (model of the `ujson` payloads handled by the engine)

The admission code reads at most two levels of JSON nesting
(`output["prob"]["entailed"]`), so objects nest scalars.  A JSON number is
carried as its Python `str()` rendering, since the code never does
arithmetic on payload numbers, only `str()` / `float()` rendering. -/

inductive JScalar where
  | str (s : String)
  | num (r : String)
  | bool (b : Bool)
  | null
deriving Repr

inductive JVal where
  | str (s : String)
  | num (r : String)
  | bool (b : Bool)
  | null
  | obj (fields : List (String × JScalar))
deriving Repr

/-- A JSON object: an ordered association list, as a Python dict. -/
abbrev JObj := List (String × JVal)

/-- Key lookup in an object, the model of `d[k]` / `k in d`. -/
def jlookup (o : JObj) (k : String) : Option JVal :=
  (List.find? (fun p => p.1 == k) o).map Prod.snd

/-- Key lookup in a nested (scalar-valued) object. -/
def jlookupS (o : List (String × JScalar)) (k : String) : Option JScalar :=
  (List.find? (fun p => p.1 == k) o).map Prod.snd

/-- Model of `d = dict(a); d.update(b)`: values of `b` win on key collision,
insertion order of `a` is kept, new keys of `b` are appended. -/
def jmerge (a b : JObj) : JObj :=
  a.map (fun p => match jlookup b p.1 with
    | some v => (p.1, v)
    | none => p)
  ++ b.filter (fun p => (jlookup a p.1).isNone)

/-- Python `str()` of a scalar. -/
def pyStrS : JScalar → String
  | .str s => s
  | .num r => r
  | .bool true => "True"
  | .bool false => "False"
  | .null => "None"

/-- Python `str()` of a JSON value.  The textual rendering of a nested dict
is never exercised by the admission code paths under study and is
abstracted to a fixed token. -/
def pyStr : JVal → String
  | .str s => s
  | .num r => r
  | .bool true => "True"
  | .bool false => "False"
  | .null => "None"
  | .obj _ => "dict"

/-- Python `str(float(x))`: `none` models the `TypeError` / `ValueError`
raised on non-numeric values.  A number rendering is assumed to already be
the canonical float rendering; strings parseable as floats are not
modelled (unexercised). -/
def pyFloatStr : JVal → Option String
  | .num r => some r
  | .bool true => some "1.0"
  | .bool false => some "0.0"
  | _ => none

/-- Python truthiness, used by `not output["model_is_correct"]`.  Numeric
truthiness is decided on the canonical zero renderings. -/
def pyTruthy : JVal → Bool
  | .str s => !(s == "")
  | .num r => !(r == "0" || r == "0.0" || r == "-0.0")
  | .bool b => b
  | .null => false
  | .obj fs => !fs.isEmpty

/-! ## Entity records (read-only rows consulted by the engine) -/

/-- One field of the per-task annotation configuration JSON: a named, typed
entry of the context/output lists. -/
structure AnnField where
  name : String
  type : String
deriving Repr

/-- The per-task annotation configuration (`task.annotation_config_json`).
Only the `context` and `output` lists are touched by the admission code;
any further configuration keys pass through both signature reconstructions
unchanged and are folded into the abstract signature collaborator. -/
structure AnnotationConfig where
  context : List AnnField
  output : List AnnField
deriving Repr

/-- A task row: numeric id, task code, annotation configuration. -/
structure TaskRec where
  id : Nat
  task_code : String
  annotation_config : AnnotationConfig
deriving Repr

/-- A round row: owning task, round index, per-round secret. -/
structure RoundRec where
  task : TaskRec
  rid : Nat
  secret : String
deriving Repr

/-- A context row: owning round and the deserialised `context_json` dict. -/
structure ContextRec where
  round : RoundRec
  context_json : JObj
deriving Repr

/-! ## Python-level outcomes -/

/-- Exceptions the admission code can raise (it has no handler except
around the final persistence block). -/
inductive PyErr where
  | typeError
  | attributeError
  | indexError
  | keyError
  | unboundLocal
  | noResultFound
deriving Repr, DecidableEq

/-! ## The legacy signature check (`ExampleModel.verify_signature`) -/

/-- Model of `.encode("utf-8")` on a JSON value: only strings have
`encode`, anything else raises `AttributeError`. -/
def encodeJ : JVal → Except PyErr (List Nat)
  | .str s => .ok (strBytes s)
  | _ => .error .attributeError

/-- Python `s.startswith(pre)`: structural byte-level check (the core
`String.startsWith` is not used because its well-founded recursion does
not reduce definitionally). -/
def strStartsWith (s pre : String) : Bool :=
  pre.data.isPrefixOf s.data

/-- The final digest comparison `h.hexdigest() != signature` of
`verify_signature`: a `None` signature compares unequal to the hex
digest, as in Python. -/
def sigMatches (digest : String) (signature : Option String) : Bool :=
  match signature with
  | some s => digest == s
  | none => false

/-- `ExampleModel.verify_signature(signature, context, hypothesis, pred_str)`.

The incremental `hashlib.sha1()` object is modelled by accumulating the
updated byte strings and taking the SHA-1 hex digest of the accumulated
buffer, which is exactly the semantics of cumulative `update` calls.
`list(ujson.loads(context.context_json).values())[0]` raises `IndexError`
on an empty context dict; `.encode` on a non-string context value is only
reached when the task code is not sentiment/hs, matching the source.
A `None` signature compares unequal to the hex digest, as in Python. -/
def verify_signature (signature : Option String) (c : ContextRec)
    (hypothesis : JVal) (pred_str : String) : Except PyErr Bool :=
  let tid := c.round.task.id
  let rid := c.round.rid
  let secret := c.round.secret
  match (c.context_json.map Prod.snd).head? with
  | none => .error .indexError
  | some ctxVal =>
    let f1 := strBytes pred_str
    let ctxField : Except PyErr (List (List Nat)) :=
      if c.round.task.task_code == "sentiment" || c.round.task.task_code == "hs"
      then .ok []
      else (encodeJ ctxVal).map (fun b => [b])
    match ctxField with
    | .error e => .error e
    | .ok ctxPart =>
      match encodeJ hypothesis with
      | .error e => .error e
      | .ok f3 =>
        let f4 := strBytes (toString tid ++ toString rid ++ secret)
        let fields_to_sign := [f1] ++ ctxPart ++ [f3, f4]
        let buf := fields_to_sign.foldl (fun acc f => acc ++ f) []
        if sigMatches (sha1Hex buf) signature
        then .ok true
        else .ok false

/-! ## The admission operation (`ExampleModel.create`) -/

/-- The Example row constructed and persisted on successful admission,
restricted to the fields the admission code sets from its arguments.
Serialisation of the payloads to JSON text is not modelled; the payload
values themselves are kept. -/
structure PersistedExample where
  uid : Option String
  input : JObj
  output : Option JObj
  metadata : JObj
  model_wrong : Option Bool
  tag : Option String
  model_endpoint_name : Option String

/-- Result of one `create` call: the persisted row, the uniform Python
`False`, or an uncaught exception. -/
inductive Outcome where
  | ok (e : PersistedExample)
  | reject
  | exn (e : PyErr)

/-- Result of the legacy prediction-string computation inside `create`:
the uniform failure, an exception, or the (possibly never-assigned)
`pred` variable together with the possibly reassigned `model_wrong`. -/
inductive PredRes where
  | reject
  | err (e : PyErr)
  | ok (pred : Option String) (model_wrong : Option Bool)

/-- Model of `if "model_id" in output: pred += "|" + str(output["model_id"])`. -/
def withModelId (output : JObj) (pred : String) : String :=
  match jlookup output "model_id" with
  | some mid => pred ++ "|" ++ pyStr mid
  | none => pred

/-- Python `"|".join(parts)`. -/
def joinBar : List String → String
  | [] => ""
  | [x] => x
  | x :: xs => x ++ "|" ++ joinBar xs

/-- Join `str` renderings of the given keys of `output["prob"]` with `"|"`.
A missing key raises `KeyError`; subscripting a non-dict raises
`TypeError`. -/
def probJoin (probv : JVal) (keys : List String) (mw : Option Bool) : PredRes :=
  match probv with
  | .obj m =>
    match keys.mapM (fun k => jlookupS m k) with
    | none => .err .keyError
    | some vs => .ok (some (joinBar (vs.map pyStrS))) mw
  | _ => .err .typeError

/-- The per-task-code legacy prediction-string computation of `create`
(the block marked as a pre-dynalab hack in the source).  For QA/VQA the
incoming `model_wrong` is overwritten; for a task code outside the five
enumerated ones whose output has a `prob` key, the local `pred` is never
assigned, which the caller turns into an unbound-local exception. -/
def legacyPred (task_code : String) (output : JObj) (model_wrong : Option Bool) :
    PredRes :=
  if task_code == "qa" || task_code == "vqa" then
    match task_code == "vqa", jlookup output "answer", jlookup output "prob" with
    | true, some ans, some prob =>
      (match pyFloatStr prob with
       | none => .err .typeError
       | some pf =>
         .ok (some (withModelId output (pyStr ans ++ "|" ++ pf))) (some false))
    | _, _, _ =>
      match jlookup output "model_is_correct", jlookup output "text" with
      | some mic, some txt =>
        .ok (some (withModelId output (pyStr mic ++ "|" ++ pyStr txt)))
           (some (!pyTruthy mic))
      | _, _ => .reject
  else
    match jlookup output "prob" with
    | none => .reject
    | some probv =>
      if task_code == "nli" then
        probJoin probv ["entailed", "neutral", "contradictory"] model_wrong
      else if task_code == "sentiment" then
        probJoin probv ["negative", "positive", "neutral"] model_wrong
      else if task_code == "hs" then
        probJoin probv ["not-hateful", "hateful"] model_wrong
      else .ok none model_wrong

/-- The legacy annotation-configuration variant built by `create` for the
pre-dynatask signature reconstruction: context fields are cleared for the
hs and sentiment task codes only, and output fields typed
`multiclass_probs` or `conf` are removed. -/
def legacyAnnotationConfig (task_code : String) (cfg : AnnotationConfig) :
    AnnotationConfig :=
  { context := if task_code == "hs" || task_code == "sentiment" then []
               else cfg.context
    output := cfg.output.filter
      (fun f => !(f.type == "multiclass_probs" || f.type == "conf")) }

/-- Follows the words of the spec, for comparison with
`legacyAnnotationConfig`: a legacy schema variant with context fields
stripped (unconditionally) and probability/confidence-typed output fields
removed. -/
def specLegacyAnnotationConfig (cfg : AnnotationConfig) : AnnotationConfig :=
  { context := []
    output := cfg.output.filter
      (fun f => !(f.type == "multiclass_probs" || f.type == "conf")) }

/-- The collaborators consulted by one `create` call: the context row
fetched for the submitted context id (`none` models a missing row, whose
attribute access raises), the schema-validator capabilities of the task,
the response-signature generator parameterised by an annotation
configuration and task code (the source passes the annotation data twice;
a single parameter stands for both), the secret of the Model row matching
the endpoint name (`none` models `NoResultFound` from `.one()`), and
whether the persistence transaction succeeds. -/
structure Env where
  context : Option ContextRec
  verify_annot : JObj → Bool
  convert_to_model_fmt : JObj → JObj
  genSig : AnnotationConfig → String → JObj → String → String
  model_secret : Option String
  persistOk : Bool

/-- The arguments of `ExampleModel.create`.  The task and round ids arrive
already converted to integers; the context id is implicit in
`Env.context`. -/
structure Args where
  tid : Nat
  rid : Nat
  uid : String
  input : JObj
  output : Option JObj
  model_signature : Option String
  metadata : JObj
  model_wrong : Option Bool
  tag : Option String
  model_endpoint_name : Option String

/-- The final persistence block of `create` (the only part under a
`try`/`except`): any store failure, including the user-row fetch for a
non-turk submitter, is caught and turned into the uniform failure. -/
def persistExample (env : Env) (a : Args) (mw : Option Bool) : Outcome :=
  if env.persistOk then
    .ok { uid := if a.uid == "turk" then none else some a.uid
          input := a.input
          output := a.output
          metadata := a.metadata
          model_wrong := mw
          tag := a.tag
          model_endpoint_name := a.model_endpoint_name }
  else .reject

/-- `ExampleModel.create`, step for step from the source: turk worker-id
precheck, context round/task match, user-annotation schema check, the
model-in-the-loop guard, model-annotation schema check, then dispatch to
the delegated (endpoint name starting with `ts`) or legacy signature
scheme, and finally persistence. -/
def create (env : Env) (a : Args) : Outcome :=
  if a.uid == "turk" && (jlookup a.metadata "annotator_id").isNone then
    .reject
  else
    match env.context with
    | none => .exn .attributeError
    | some c =>
      if !(a.tid == c.round.task.id && a.rid == c.round.rid) then .reject
      else
        let task := c.round.task
        let context := c.context_json
        let all_user_annotation_data := jmerge context a.input
        if !(env.verify_annot all_user_annotation_data) then .reject
        else
          if a.model_signature.isNone && a.model_wrong.isNone
             && a.model_endpoint_name.isNone && a.output.isNone then
            persistExample env a a.model_wrong
          else
            match a.output with
            | none => .exn .typeError
            | some output =>
              let all_model_annotation_data :=
                jmerge (jmerge context a.input) output
              if !(env.verify_annot all_model_annotation_data) then .reject
              else
                match a.model_endpoint_name with
                | none => .exn .attributeError
                | some endpoint_name =>
                  if strStartsWith endpoint_name "ts" then
                    let data := env.convert_to_model_fmt all_model_annotation_data
                    let cfg := task.annotation_config
                    let legacyCfg := legacyAnnotationConfig task.task_code cfg
                    match env.model_secret with
                    | none => .exn .noResultFound
                    | some secret =>
                      if a.model_signature
                           == some (env.genSig cfg task.task_code data secret)
                         || a.model_signature
                           == some (env.genSig legacyCfg task.task_code data secret)
                      then persistExample env a a.model_wrong
                      else .reject
                  else
                    match legacyPred task.task_code output a.model_wrong with
                    | .reject => .reject
                    | .err e => .exn e
                    | .ok predOpt mw =>
                      match (a.input.map Prod.snd).head? with
                      | none => .exn .indexError
                      | some hypothesis =>
                        match predOpt with
                        | none => .exn .unboundLocal
                        | some pred =>
                          match verify_signature a.model_signature c
                              hypothesis pred with
                          | .error e => .exn e
                          | .ok false => .reject
                          | .ok true => persistExample env a mw

/-! ## The retrieval engine (`getRandom`, `getRandomFiltered`)

The relational store is modelled as lists of rows; the SQLAlchemy query is
translated clause by clause into list operations.  Context and example ids
are primary keys, so the inner join of an example with its context is a
`find?` on the context id.  SQL three-valued logic matters in two places:
`Example.model_wrong == True` excludes NULL, and `Example.uid != my_uid`
excludes NULL authors.  `ORDER BY NOT model_wrong` in MySQL places NULL
first, then model_wrong true, then false; `func.rand()` is modelled by an
arbitrary priority function of the example id, with the id itself as the
final key so the sort is deterministic for each priority choice. -/

/-- An `examples` row, restricted to the columns the retrieval queries
read. -/
structure ExampleRow where
  id : Nat
  cid : Nat
  uid : Option Nat
  tag : Option String
  model_wrong : Option Bool
  retracted : Bool
  total_verified : Nat
deriving Repr, DecidableEq

/-- A `contexts` row: id and real round id. -/
structure ContextRow where
  id : Nat
  r_realid : Nat
deriving Repr, DecidableEq

/-- Validation labels. -/
inductive VLabel where
  | correct
  | incorrect
  | flagged
deriving Repr, DecidableEq

/-- Validation modes. -/
inductive VMode where
  | owner
  | user
deriving Repr, DecidableEq

/-- A `validations` row. -/
structure ValidationRow where
  id : Nat
  eid : Nat
  uid : Nat
  label : VLabel
  mode : VMode
deriving Repr, DecidableEq

/-- The relational store consulted by the retrieval queries. -/
structure DB where
  examples : List ExampleRow
  contexts : List ContextRow
  validations : List ValidationRow

/-- The validations joined to one example (`Validation.eid == Example.id`). -/
def valsOf (db : DB) (e : ExampleRow) : List ValidationRow :=
  db.validations.filter (fun v => v.eid == e.id)

/-- `SUM(CASE WHEN label = lb THEN 1 ELSE 0 END)` over a validation group. -/
def cntLabel (vs : List ValidationRow) (lb : VLabel) : Nat :=
  (vs.filter (fun v => v.label == lb)).length

/-- `SUM(CASE WHEN mode = owner THEN 1 ELSE 0 END)` over a validation
group. -/
def cntOwner (vs : List ValidationRow) : Nat :=
  (vs.filter (fun v => v.mode == VMode.owner)).length

/-- `SUM(CASE WHEN uid = u THEN 1 ELSE 0 END)` over a validation group. -/
def cntUid (vs : List ValidationRow) (u : Nat) : Nat :=
  (vs.filter (fun v => v.uid == u)).length

/-- The shared base query of both retrieval modes: examples of the round
(joined through their context), not retracted, optionally tag-filtered
(`if tags:` is Python truthiness, so an empty tag list disables the
filter, and a NULL tag never matches `IN`), and restricted to
`model_wrong == True` unless non-fooling validation is enabled. -/
def baseFilter (db : DB) (rid : Nat) (validate_non_fooling : Bool)
    (tags : Option (List String)) (e : ExampleRow) : Bool :=
  (match db.contexts.find? (fun c => c.id == e.cid) with
   | some c => c.r_realid == rid
   | none => false)
  && !e.retracted
  && (match tags with
      | some ts =>
        if ts.isEmpty then true
        else match e.tag with
          | some t => ts.contains t
          | none => false
      | none => true)
  && (validate_non_fooling || e.model_wrong == some true)

/-- `UNION` of two row lists: concatenation with duplicate rows removed,
keeping first occurrences. -/
def sqlUnion (l1 l2 : List ExampleRow) : List ExampleRow :=
  (l1 ++ l2).dedup

/-- MySQL `ORDER BY NOT model_wrong` rank: NULL first, then true, then
false. -/
def mwKey : Option Bool → Nat
  | none => 0
  | some true => 1
  | some false => 2

/-- The full sort key: fooled-rank, total validations, random priority,
id. -/
def exKey (rnd : Nat → Nat) (e : ExampleRow) : Nat × Nat × Nat × Nat :=
  (mwKey e.model_wrong, e.total_verified, rnd e.id, e.id)

/-- Lexicographic comparison of sort keys. -/
def tupLe (a b : Nat × Nat × Nat × Nat) : Bool :=
  if a.1 < b.1 then true
  else if b.1 < a.1 then false
  else if a.2.1 < b.2.1 then true
  else if b.2.1 < a.2.1 then false
  else if a.2.2.1 < b.2.2.1 then true
  else if b.2.2.1 < a.2.2.1 then false
  else a.2.2.2 ≤ b.2.2.2

/-- Insert into a sorted list. -/
def insertLe (le : α → α → Bool) (x : α) : List α → List α
  | [] => [x]
  | y :: ys => if le x y then x :: y :: ys else y :: insertLe le x ys

/-- Insertion sort by a boolean comparison. -/
def sortByLe (le : α → α → Bool) : List α → List α
  | [] => []
  | x :: xs => insertLe le x (sortByLe le xs)

/-- `ORDER BY NOT model_wrong, total_verified ASC, RAND() LIMIT n`. -/
def orderAndLimit (rnd : Nat → Nat) (n : Nat) (l : List ExampleRow) :
    List ExampleRow :=
  (sortByLe (fun a b => tupLe (exKey rnd a) (exKey rnd b)) l).take n

/-- The qualifying set of `getRandom` before ordering: the union of the
partially-validated branch (inner join with validations, grouped per
example, each label count below the threshold, no owner validation, and,
when a requesting user is given, no validation by that user) with the
never-validated branch, then the author exclusion. -/
def getRandomPool (db : DB) (rid : Nat) (validate_non_fooling : Bool)
    (num_matching_validations : Int) (my_uid : Option Nat)
    (tags : Option (List String)) : List ExampleRow :=
  let base := db.examples.filter (baseFilter db rid validate_non_fooling tags)
  let partly_validated := base.filter (fun e =>
    let vs := valsOf db e
    !vs.isEmpty
    && decide ((cntLabel vs .correct : Int) < num_matching_validations)
    && decide ((cntLabel vs .flagged : Int) < num_matching_validations)
    && decide ((cntLabel vs .incorrect : Int) < num_matching_validations)
    && cntOwner vs == 0
    && (match my_uid with
        | some u => cntUid vs u == 0
        | none => true))
  let not_validated := base.filter (fun e => (valsOf db e).isEmpty)
  (sqlUnion partly_validated not_validated).filter (fun e =>
    match my_uid with
    | some u => match e.uid with
      | some a => !(a == u)
      | none => false
    | none => true)

/-- `ExampleModel.getRandom`. -/
def getRandom (db : DB) (rid : Nat) (validate_non_fooling : Bool)
    (num_matching_validations : Int) (n : Nat) (my_uid : Option Nat)
    (tags : Option (List String)) (rnd : Nat → Nat) : List ExampleRow :=
  orderAndLimit rnd n
    (getRandomPool db rid validate_non_fooling num_matching_validations
      my_uid tags)

/-- The qualifying set of `getRandomFiltered` before ordering: the
validated branch requires no owner validation, the flagged count within
the flag band, and the disagreement disjunction on correct/incorrect
counts; the never-validated branch is unioned in only when both minimum
thresholds are zero. -/
def getRandomFilteredPool (db : DB) (rid : Nat)
    (min_num_flags max_num_flags min_num_disagreements
      max_num_disagreements : Int)
    (validate_non_fooling : Bool) (tags : Option (List String)) :
    List ExampleRow :=
  let base := db.examples.filter (baseFilter db rid validate_non_fooling tags)
  let not_validated := base.filter (fun e => (valsOf db e).isEmpty)
  let validated := base.filter (fun e =>
    let vs := valsOf db e
    let cor : Int := cntLabel vs .correct
    let inc : Int := cntLabel vs .incorrect
    let flg : Int := cntLabel vs .flagged
    !vs.isEmpty
    && cntOwner vs == 0
    && decide (flg ≤ max_num_flags) && decide (flg ≥ min_num_flags)
    && (   (decide (inc > cor) && decide (cor ≥ min_num_disagreements)
            && decide (cor ≤ max_num_disagreements))
        || (decide (cor ≥ inc) && decide (inc ≥ min_num_disagreements)
            && decide (inc ≤ max_num_disagreements))))
  if min_num_disagreements == 0 && min_num_flags == 0 then
    sqlUnion validated not_validated
  else validated

/-- `ExampleModel.getRandomFiltered`. -/
def getRandomFiltered (db : DB) (rid : Nat)
    (min_num_flags max_num_flags min_num_disagreements
      max_num_disagreements : Int)
    (validate_non_fooling : Bool) (n : Nat) (tags : Option (List String))
    (rnd : Nat → Nat) : List ExampleRow :=
  orderAndLimit rnd n
    (getRandomFilteredPool db rid min_num_flags max_num_flags
      min_num_disagreements max_num_disagreements validate_non_fooling tags)

/-! ## Claim C1: the legacy signature is the SHA-1 hex digest of the
canonical field concatenation -/

/-- The canonical byte sequence the legacy scheme signs: prediction
string, then the context string unless the task code is sentiment or hs,
then the hypothesis, then the concatenation of task id, round id and
round secret. -/
def canonicalSignedBytes (c : ContextRec) (ctxS hypS pred : String) :
    List Nat :=
  strBytes pred
    ++ (if c.round.task.task_code = "sentiment"
          ∨ c.round.task.task_code = "hs" then [] else strBytes ctxS)
    ++ strBytes hypS
    ++ strBytes (toString c.round.task.id ++ toString c.round.rid
         ++ c.round.secret)

/-- C1: for a legacy-scheme submission, `verify_signature` accepts exactly
the hex digest of one cumulative SHA-1 hash over, in order, the prediction
string, the context string (omitted for the sentiment and hs task codes),
the hypothesis text, and the task id / round id / round secret
concatenation; acceptance is plain string equality with the client
signature. -/
theorem sigMatches_accept_iff (d : String) (sig : Option String) :
    ((if sigMatches d sig then (Except.ok true : Except PyErr Bool)
      else .ok false) = .ok true) ↔ sig = some d := by
  cases sig with
  | none => simp [sigMatches]
  | some s =>
    cases hbe : d == s with
    | true =>
      rw [beq_iff_eq] at hbe
      simp [sigMatches, hbe]
    | false =>
      have hne : d ≠ s := by
        intro h
        rw [h] at hbe
        simp at hbe
      simp only [sigMatches, hbe, Bool.false_eq_true, if_false,
        Option.some.injEq]
      constructor
      · intro h
        cases h
      · intro h
        exact absurd h.symm hne

theorem claim_C1 (signature : Option String) (c : ContextRec)
    (ctxS hypS pred : String)
    (hctx : (c.context_json.map Prod.snd).head? = some (JVal.str ctxS)) :
    verify_signature signature c (JVal.str hypS) pred = .ok true ↔
      signature = some (sha1Hex (canonicalSignedBytes c ctxS hypS pred)) := by
  unfold verify_signature canonicalSignedBytes
  rw [hctx]
  by_cases hsc : c.round.task.task_code = "sentiment"
      ∨ c.round.task.task_code = "hs"
  · have hb : (c.round.task.task_code == "sentiment"
        || c.round.task.task_code == "hs") = true := by
      rcases hsc with h | h <;> simp [h]
    rw [if_pos hsc]
    simp only [hb, encodeJ, if_true, List.foldl, List.nil_append,
      List.cons_append, List.append_nil, List.append_assoc]
    exact sigMatches_accept_iff _ _
  · have hb : (c.round.task.task_code == "sentiment"
        || c.round.task.task_code == "hs") = false := by
      push_neg at hsc
      simp [hsc.1, hsc.2]
    rw [if_neg hsc]
    simp only [hb, Bool.false_eq_true, if_false, encodeJ, Except.map,
      List.foldl, List.nil_append, List.cons_append, List.append_nil,
      List.append_assoc]
    exact sigMatches_accept_iff _ _

/-- A concrete context row used to evaluate `claim_C1`. -/
def c1ctx : ContextRec :=
  { round := { task := { id := 3, task_code := "nli",
                         annotation_config := { context := [], output := [] } }
               rid := 2, secret := "sek" }
    context_json := [("premise", JVal.str "prem")] }

/-- Witness for C1 at a concrete input: the SHA-1 digest of
`0.7|0.2|0.1` + `prem` + `hyp` + `32sek` is accepted. -/
theorem claim_C1_witness :
    verify_signature (some "476fe19607e08ef7ff2133db1b4b53d36a3cbea0") c1ctx
      (JVal.str "hyp") "0.7|0.2|0.1" = .ok true :=
  (claim_C1 (some "476fe19607e08ef7ff2133db1b4b53d36a3cbea0") c1ctx
    "prem" "hyp" "0.7|0.2|0.1" rfl).mpr rfl

/-! ## Path lemmas for `create` -/

/-- `create` on the pure human path (signature, model-wrong flag, endpoint
name and output all absent): the model-integrity block is skipped
entirely. -/
theorem create_human_eq (env : Env) (a : Args) (c : ContextRec)
    (hc : env.context = some c)
    (hsig : a.model_signature = none) (hmw : a.model_wrong = none)
    (hend : a.model_endpoint_name = none) (hout : a.output = none) :
    create env a =
      if a.uid == "turk" && (jlookup a.metadata "annotator_id").isNone then
        .reject
      else if !(a.tid == c.round.task.id && a.rid == c.round.rid) then .reject
      else if !(env.verify_annot (jmerge c.context_json a.input)) then
        .reject
      else persistExample env a none := by
  unfold create
  rw [hc, hsig, hmw, hend, hout]
  simp

/-- `create` on the legacy (non-`ts` endpoint) model path, unfolded to the
precheck cascade followed by the legacy prediction computation and the
hash comparison. -/
theorem create_legacy_eq (env : Env) (a : Args) (c : ContextRec) (o : JObj)
    (en : String)
    (hc : env.context = some c) (ho : a.output = some o)
    (hen : a.model_endpoint_name = some en)
    (hts : strStartsWith en "ts" = false) :
    create env a =
      if a.uid == "turk" && (jlookup a.metadata "annotator_id").isNone then
        .reject
      else if !(a.tid == c.round.task.id && a.rid == c.round.rid) then .reject
      else if !(env.verify_annot (jmerge c.context_json a.input)) then
        .reject
      else if !(env.verify_annot
          (jmerge (jmerge c.context_json a.input) o)) then .reject
      else
        match legacyPred c.round.task.task_code o a.model_wrong with
        | .reject => .reject
        | .err er => .exn er
        | .ok predOpt mw =>
          match (a.input.map Prod.snd).head? with
          | none => .exn .indexError
          | some hypothesis =>
            match predOpt with
            | none => .exn .unboundLocal
            | some pred =>
              match verify_signature a.model_signature c hypothesis pred with
              | .error er => .exn er
              | .ok false => .reject
              | .ok true => persistExample env a mw := by
  unfold create
  rw [hc, ho, hen]
  simp [hts]

/-- `create` on the delegated (`ts` endpoint) model path, unfolded to the
precheck cascade followed by the two-candidate signature comparison. -/
theorem create_delegated_eq (env : Env) (a : Args) (c : ContextRec)
    (o : JObj) (en : String)
    (hc : env.context = some c) (ho : a.output = some o)
    (hen : a.model_endpoint_name = some en)
    (hts : strStartsWith en "ts" = true) :
    create env a =
      if a.uid == "turk" && (jlookup a.metadata "annotator_id").isNone then
        .reject
      else if !(a.tid == c.round.task.id && a.rid == c.round.rid) then .reject
      else if !(env.verify_annot (jmerge c.context_json a.input)) then
        .reject
      else if !(env.verify_annot
          (jmerge (jmerge c.context_json a.input) o)) then .reject
      else
        match env.model_secret with
        | none => .exn .noResultFound
        | some secret =>
          if a.model_signature
               == some (env.genSig c.round.task.annotation_config
                   c.round.task.task_code
                   (env.convert_to_model_fmt
                     (jmerge (jmerge c.context_json a.input) o)) secret)
             || a.model_signature
               == some (env.genSig
                   (legacyAnnotationConfig c.round.task.task_code
                     c.round.task.annotation_config)
                   c.round.task.task_code
                   (env.convert_to_model_fmt
                     (jmerge (jmerge c.context_json a.input) o)) secret)
          then persistExample env a a.model_wrong
          else .reject := by
  unfold create
  rw [hc, ho, hen]
  simp [hts]

/-! ## Claim C9: the legacy NLI prediction string -/

/-- C9: in the legacy scheme, the NLI prediction string is the `str`
renderings of the three class probabilities joined by a bar in the fixed
order entailed, neutral, contradictory; the incoming model-wrong flag is
passed through unchanged. -/
theorem claim_C9 (output : JObj) (m : List (String × JScalar))
    (ev nv cv : JScalar) (mw : Option Bool)
    (hp : jlookup output "prob" = some (JVal.obj m))
    (he : jlookupS m "entailed" = some ev)
    (hn : jlookupS m "neutral" = some nv)
    (hc : jlookupS m "contradictory" = some cv) :
    legacyPred "nli" output mw =
      .ok (some (pyStrS ev ++ "|" ++ pyStrS nv ++ "|" ++ pyStrS cv)) mw := by
  unfold legacyPred
  rw [hp]
  simp [probJoin, List.mapM, List.mapM.loop, he, hn, hc, joinBar,
    String.append_assoc]

/-- The concrete NLI output of the spec scenario. -/
def c9output : JObj :=
  [("prob", JVal.obj
    [("entailed", .num "0.7"), ("neutral", .num "0.2"),
     ("contradictory", .num "0.1")])]

/-- Witness for C9: the scenario output yields the prediction string
`0.7|0.2|0.1`. -/
theorem claim_C9_witness :
    legacyPred "nli" c9output none = .ok (some "0.7|0.2|0.1") none :=
  claim_C9 c9output
    [("entailed", .num "0.7"), ("neutral", .num "0.2"),
     ("contradictory", .num "0.1")]
    (.num "0.7") (.num "0.2") (.num "0.1") none rfl rfl rfl rfl

/-! ## Claim C10: QA/VQA override of the caller-supplied model_wrong -/

theorem persistExample_ok (env : Env) (a : Args) (mw : Option Bool)
    (e : PersistedExample) (h : persistExample env a mw = .ok e) :
    e.model_wrong = mw := by
  unfold persistExample at h
  split at h
  · injection h with h'
    rw [← h']
  · cases h

theorem legacyPred_vqa (o : JObj) (mw : Option Bool) (ans prob : JVal)
    (ha : jlookup o "answer" = some ans) (hp : jlookup o "prob" = some prob) :
    legacyPred "vqa" o mw =
      (match pyFloatStr prob with
       | none => .err .typeError
       | some pf =>
         .ok (some (withModelId o (pyStr ans ++ "|" ++ pf))) (some false)) := by
  unfold legacyPred
  rw [ha, hp]
  rfl

theorem legacyPred_qa (o : JObj) (mw : Option Bool) (mic txt : JVal)
    (hm : jlookup o "model_is_correct" = some mic)
    (ht : jlookup o "text" = some txt) :
    legacyPred "qa" o mw =
      .ok (some (withModelId o (pyStr mic ++ "|" ++ pyStr txt)))
        (some (!pyTruthy mic)) := by
  unfold legacyPred
  rw [hm, ht]
  rfl

/-- On the legacy path, a successful `create` persists exactly the
model-wrong value computed by the legacy prediction block. -/
theorem legacy_ok_mw (env : Env) (a : Args) (c : ContextRec) (o : JObj)
    (en : String) (e : PersistedExample) (predOpt : Option String)
    (mw : Option Bool)
    (hc : env.context = some c) (ho : a.output = some o)
    (hen : a.model_endpoint_name = some en)
    (hts : strStartsWith en "ts" = false)
    (hok : create env a = .ok e)
    (hlp : legacyPred c.round.task.task_code o a.model_wrong
      = .ok predOpt mw) :
    e.model_wrong = mw := by
  rw [create_legacy_eq env a c o en hc ho hen hts, hlp] at hok
  repeat
    first
    | exact persistExample_ok env a mw e hok
    | cases hok
    | split at hok
  rename_i mwX x2 ctxVal heq2 x1 pf heqPred xv heqVer
  injection heqPred with hpred hmw
  exact (persistExample_ok env a mwX e hok).trans hmw.symm

/-- On the legacy path, the legacy prediction block never signals a Python
error when `create` succeeds. -/
theorem legacy_no_err (env : Env) (a : Args) (c : ContextRec) (o : JObj)
    (en : String) (e : PersistedExample) (er : PyErr)
    (hc : env.context = some c) (ho : a.output = some o)
    (hen : a.model_endpoint_name = some en)
    (hts : strStartsWith en "ts" = false)
    (hok : create env a = .ok e)
    (hlp : legacyPred c.round.task.task_code o a.model_wrong = .err er) :
    False := by
  rw [create_legacy_eq env a c o en hc ho hen hts, hlp] at hok
  repeat
    first
    | cases hok
    | split at hok

/-- C10: in the non-delegated legacy path, `create` ignores the
caller-supplied model-wrong argument for QA/VQA: a persisted VQA example
whose output carries both answer and prob always has model_wrong false,
and a persisted span-QA example whose output carries model_is_correct and
text has model_wrong equal to the negation (Python truthiness) of
model_is_correct, whatever model_wrong value arrived with the call. -/
theorem claim_C10 (env : Env) (a : Args) (c : ContextRec) (o : JObj)
    (en : String) (e : PersistedExample)
    (hc : env.context = some c)
    (ho : a.output = some o)
    (hen : a.model_endpoint_name = some en)
    (hts : strStartsWith en "ts" = false)
    (hok : create env a = .ok e) :
    (c.round.task.task_code = "vqa" →
      (jlookup o "answer").isSome → (jlookup o "prob").isSome →
      e.model_wrong = some false)
    ∧ (∀ mic txt, c.round.task.task_code = "qa" →
        jlookup o "model_is_correct" = some mic →
        jlookup o "text" = some txt →
        e.model_wrong = some (!pyTruthy mic)) := by
  constructor
  · intro hcode hans hprob
    obtain ⟨ans, ha⟩ := Option.isSome_iff_exists.mp hans
    obtain ⟨prob, hp⟩ := Option.isSome_iff_exists.mp hprob
    cases hpf : pyFloatStr prob with
    | none =>
      exact absurd
        (by
          rw [hcode, legacyPred_vqa o a.model_wrong ans prob ha hp, hpf] :
          legacyPred c.round.task.task_code o a.model_wrong
            = .err .typeError)
        (fun h => legacy_no_err env a c o en e .typeError hc ho hen hts hok h)
    | some pf =>
      exact legacy_ok_mw env a c o en e
        (some (withModelId o (pyStr ans ++ "|" ++ pf))) (some false)
        hc ho hen hts hok
        (by rw [hcode, legacyPred_vqa o a.model_wrong ans prob ha hp, hpf])
  · intro mic txt hcode hm ht
    exact legacy_ok_mw env a c o en e
      (some (withModelId o (pyStr mic ++ "|" ++ pyStr txt)))
      (some (!pyTruthy mic)) hc ho hen hts hok
      (by rw [hcode, legacyPred_qa o a.model_wrong mic txt hm ht])

/-- Concrete VQA context for the C10 witness. -/
def c10ctxA : ContextRec :=
  { round := { task := { id := 5, task_code := "vqa",
                         annotation_config := { context := [], output := [] } }
               rid := 1, secret := "sec" }
    context_json := [("image_url", JVal.str "img1")] }

def c10envA : Env :=
  { context := some c10ctxA
    verify_annot := fun _ => true
    convert_to_model_fmt := fun d => d
    genSig := fun _ _ _ _ => ""
    model_secret := none
    persistOk := true }

def c10argsA : Args :=
  { tid := 5, rid := 1, uid := "u7"
    input := [("question", JVal.str "why")]
    output := some [("answer", JVal.str "cat"), ("prob", JVal.num "0.9")]
    model_signature := some "fc36b7b6f844a787375eaec60ec5d7871ecfc2dc"
    metadata := []
    model_wrong := some true
    tag := none
    model_endpoint_name := some "legacy" }

def c10exA : PersistedExample :=
  { uid := some "u7"
    input := [("question", JVal.str "why")]
    output := some [("answer", JVal.str "cat"), ("prob", JVal.num "0.9")]
    metadata := []
    model_wrong := some false
    tag := none
    model_endpoint_name := some "legacy" }

/-- Concrete span-QA context for the C10 witness. -/
def c10ctxB : ContextRec :=
  { round := { task := { id := 4, task_code := "qa",
                         annotation_config := { context := [], output := [] } }
               rid := 2, secret := "qq" }
    context_json := [("passage", JVal.str "doc")] }

def c10envB : Env :=
  { context := some c10ctxB
    verify_annot := fun _ => true
    convert_to_model_fmt := fun d => d
    genSig := fun _ _ _ _ => ""
    model_secret := none
    persistOk := true }

def c10argsB : Args :=
  { tid := 4, rid := 2, uid := "u9"
    input := [("question", JVal.str "who")]
    output := some [("model_is_correct", JVal.bool true),
                    ("text", JVal.str "ans")]
    model_signature := some "630996399984cc24a270e0dc4dde972aad8a7668"
    metadata := []
    model_wrong := none
    tag := none
    model_endpoint_name := some "bespoke" }

def c10exB : PersistedExample :=
  { uid := some "u9"
    input := [("question", JVal.str "who")]
    output := some [("model_is_correct", JVal.bool true),
                    ("text", JVal.str "ans")]
    metadata := []
    model_wrong := some false
    tag := none
    model_endpoint_name := some "bespoke" }

/-- Witness for C10: a VQA submission arriving with model_wrong true is
persisted with model_wrong false, and a span-QA submission arriving with
no model_wrong is persisted with the negation of model_is_correct. -/
theorem claim_C10_witness :
    (create c10envA c10argsA = .ok c10exA
      ∧ c10exA.model_wrong = some false)
    ∧ (create c10envB c10argsB = .ok c10exB
      ∧ c10exB.model_wrong = some (!pyTruthy (JVal.bool true))) :=
  ⟨⟨rfl,
    (claim_C10 c10envA c10argsA c10ctxA
      [("answer", JVal.str "cat"), ("prob", JVal.num "0.9")]
      "legacy" c10exA rfl rfl rfl rfl rfl).1 rfl rfl rfl⟩,
   ⟨rfl,
    (claim_C10 c10envB c10argsB c10ctxB
      [("model_is_correct", JVal.bool true), ("text", JVal.str "ans")]
      "bespoke" c10exB rfl rfl rfl rfl rfl).2
      (JVal.bool true) (JVal.str "ans") rfl rfl rfl⟩⟩

/-! ## Claim C5: human-only admission -/

/-- Context for the C5 counterexample and witness. -/
def c5ctx : ContextRec :=
  { round := { task := { id := 1, task_code := "nli",
                         annotation_config := { context := [], output := [] } }
               rid := 1, secret := "s" }
    context_json := [("premise", JVal.str "p")] }

def c5env : Env :=
  { context := some c5ctx
    verify_annot := fun _ => true
    convert_to_model_fmt := fun d => d
    genSig := fun _ _ _ _ => ""
    model_secret := none
    persistOk := true }

/-- A submission with no output, no signature, no endpoint name, but a
model-wrong flag. -/
def c5xargs : Args :=
  { tid := 1, rid := 1, uid := "u1"
    input := [("hypothesis", JVal.str "h")]
    output := none
    model_signature := none
    metadata := []
    model_wrong := some true
    tag := none
    model_endpoint_name := none }

/-- Counterexample to C5 as stated: a submission with no output, no model
signature and no endpoint name — but with a model-wrong flag — passes
schema validation yet is not admitted: `create` raises `TypeError` (from
`dict.update(None)`), because the model-integrity block is skipped only
when the model-wrong flag is also absent. -/
theorem claim_C5_counterexample :
    create c5env c5xargs = Outcome.exn PyErr.typeError
    ∧ create c5env c5xargs ≠ Outcome.reject
    ∧ create c5env c5xargs ≠ Outcome.ok
        { uid := some "u1", input := [("hypothesis", JVal.str "h")],
          output := none, metadata := [], model_wrong := some true,
          tag := none, model_endpoint_name := none } :=
  ⟨rfl, fun h => Outcome.noConfusion h, fun h => Outcome.noConfusion h⟩

/-- C5 (amended): for a human-only submission carrying neither output,
signature, endpoint name nor model-wrong flag, all model-integrity checks
are skipped, and — provided the worker-id and context round/task
prechecks pass and persistence succeeds — admission succeeds iff the
merged context and input fields pass the annotation-schema validation. -/
theorem claim_C5 (env : Env) (a : Args) (c : ContextRec)
    (hc : env.context = some c)
    (hsig : a.model_signature = none) (hmw : a.model_wrong = none)
    (hend : a.model_endpoint_name = none) (hout : a.output = none)
    (hturk : (a.uid == "turk" && (jlookup a.metadata "annotator_id").isNone)
      = false)
    (hid : (a.tid == c.round.task.id && a.rid == c.round.rid) = true)
    (hper : env.persistOk = true) :
    (∃ e, create env a = .ok e) ↔
      env.verify_annot (jmerge c.context_json a.input) = true := by
  rw [create_human_eq env a c hc hsig hmw hend hout]
  cases hva : env.verify_annot (jmerge c.context_json a.input) with
  | false =>
    simp [hturk, hid, hva]
  | true =>
    simp [hturk, hid, hva, persistExample, hper]

/-- A valid human-only submission for the C5 witness. -/
def c5wargs : Args :=
  { tid := 1, rid := 1, uid := "u1"
    input := [("hypothesis", JVal.str "h")]
    output := none
    model_signature := none
    metadata := []
    model_wrong := none
    tag := none
    model_endpoint_name := none }

/-- Witness for the amended C5: a concrete human-only submission is
admitted when schema validation passes. -/
theorem claim_C5_witness : ∃ e, create c5env c5wargs = Outcome.ok e :=
  (claim_C5 c5env c5wargs c5ctx rfl rfl rfl rfl rfl rfl rfl rfl).mpr rfl

/-! ## Claim C2: delegated-scheme dual-candidate acceptance -/

/-- C2 (amended): on the delegated path (endpoint name matching the
hosted-model naming convention), once the prechecks pass, admission
succeeds iff the client signature equals the reconstruction from the
current annotation configuration or the one from the legacy variant —
whose context fields are cleared only for the hs and sentiment task codes
and whose multiclass_probs/conf-typed output fields are removed.  In
particular a submission matching only the legacy reconstruction is
accepted. -/
theorem claim_C2 (env : Env) (a : Args) (c : ContextRec) (o : JObj)
    (en secret sig : String)
    (hc : env.context = some c) (ho : a.output = some o)
    (hen : a.model_endpoint_name = some en)
    (hts : strStartsWith en "ts" = true)
    (hturk : (a.uid == "turk" && (jlookup a.metadata "annotator_id").isNone)
      = false)
    (hid : (a.tid == c.round.task.id && a.rid == c.round.rid) = true)
    (hs1 : env.verify_annot (jmerge c.context_json a.input) = true)
    (hs2 : env.verify_annot (jmerge (jmerge c.context_json a.input) o) = true)
    (hsec : env.model_secret = some secret)
    (hsig : a.model_signature = some sig)
    (hper : env.persistOk = true) :
    (∃ e, create env a = .ok e) ↔
      (sig = env.genSig c.round.task.annotation_config c.round.task.task_code
          (env.convert_to_model_fmt (jmerge (jmerge c.context_json a.input) o))
          secret
       ∨ sig = env.genSig
          (legacyAnnotationConfig c.round.task.task_code
            c.round.task.annotation_config)
          c.round.task.task_code
          (env.convert_to_model_fmt (jmerge (jmerge c.context_json a.input) o))
          secret) := by
  rw [create_delegated_eq env a c o en hc ho hen hts]
  rw [hturk, hid, hs1, hs2, hsec, hsig]
  by_cases hd : (sig = env.genSig c.round.task.annotation_config
        c.round.task.task_code
        (env.convert_to_model_fmt (jmerge (jmerge c.context_json a.input) o))
        secret
      ∨ sig = env.genSig
        (legacyAnnotationConfig c.round.task.task_code
          c.round.task.annotation_config)
        c.round.task.task_code
        (env.convert_to_model_fmt (jmerge (jmerge c.context_json a.input) o))
        secret)
  · have hb : (some sig
        == some (env.genSig c.round.task.annotation_config
            c.round.task.task_code
            (env.convert_to_model_fmt
              (jmerge (jmerge c.context_json a.input) o)) secret)
      || some sig
        == some (env.genSig
            (legacyAnnotationConfig c.round.task.task_code
              c.round.task.annotation_config)
            c.round.task.task_code
            (env.convert_to_model_fmt
              (jmerge (jmerge c.context_json a.input) o)) secret)) = true := by
      rcases hd with h | h <;> simp [h]
    simp [hb, persistExample, hper, hd]
  · have hb : (some sig
        == some (env.genSig c.round.task.annotation_config
            c.round.task.task_code
            (env.convert_to_model_fmt
              (jmerge (jmerge c.context_json a.input) o)) secret)
      || some sig
        == some (env.genSig
            (legacyAnnotationConfig c.round.task.task_code
              c.round.task.annotation_config)
            c.round.task.task_code
            (env.convert_to_model_fmt
              (jmerge (jmerge c.context_json a.input) o)) secret)) = false := by
      rw [not_or] at hd
      simp [hd.1, hd.2]
    simp [hb, hd]

/-- Annotation configuration used in the C2 counterexample: one context
field, plain output fields. -/
def c2xcfg : AnnotationConfig :=
  { context := [{ name := "premise", type := "string" }]
    output := [{ name := "label", type := "string" }] }

def c2xctx : ContextRec :=
  { round := { task := { id := 2, task_code := "nli",
                         annotation_config := c2xcfg }
               rid := 1, secret := "sek" }
    context_json := [("premise", JVal.str "p")] }

/-- A signature generator that depends on the number of context fields of
the configuration it is handed — any schema-sensitive generator separates
the code variant from the spec-described variant. -/
def c2xenv : Env :=
  { context := some c2xctx
    verify_annot := fun _ => true
    convert_to_model_fmt := fun d => d
    genSig := fun cfg _ _ _ => toString cfg.context.length
    model_secret := some "sek"
    persistOk := true }

def c2xargs : Args :=
  { tid := 2, rid := 1, uid := "u1"
    input := [("hypothesis", JVal.str "h")]
    output := some [("label", JVal.str "e")]
    model_signature := some "0"
    metadata := []
    model_wrong := some false
    tag := none
    model_endpoint_name := some "ts-nli-model" }

/-- Counterexample to C2 as stated: for an nli task the claimed legacy
variant (context fields stripped unconditionally) yields signature `0`,
and a submission carrying exactly that signature is rejected — the code
clears context fields only for hs/sentiment, so both code candidates are
`1`. -/
theorem claim_C2_counterexample :
    c2xargs.model_signature
      = some (Env.genSig c2xenv (specLegacyAnnotationConfig c2xcfg) "nli"
          (Env.convert_to_model_fmt c2xenv
            (jmerge (jmerge c2xctx.context_json c2xargs.input)
              [("label", JVal.str "e")])) "sek")
    ∧ create c2xenv c2xargs = Outcome.reject :=
  ⟨rfl, rfl⟩

/-- Configuration for the C2 witness: the legacy variant differs from the
current one by a removed conf-typed output field. -/
def c2wcfg : AnnotationConfig :=
  { context := [{ name := "premise", type := "string" }]
    output := [{ name := "conf", type := "conf" },
               { name := "label", type := "string" }] }

def c2wctx : ContextRec :=
  { round := { task := { id := 2, task_code := "nli",
                         annotation_config := c2wcfg }
               rid := 1, secret := "sek" }
    context_json := [("premise", JVal.str "p")] }

def c2wenv : Env :=
  { context := some c2wctx
    verify_annot := fun _ => true
    convert_to_model_fmt := fun d => d
    genSig := fun cfg _ _ _ => toString cfg.output.length
    model_secret := some "sek"
    persistOk := true }

def c2wargs : Args :=
  { tid := 2, rid := 1, uid := "u1"
    input := [("hypothesis", JVal.str "h")]
    output := some [("label", JVal.str "e")]
    model_signature := some "1"
    metadata := []
    model_wrong := some false
    tag := none
    model_endpoint_name := some "ts-nli-model" }

/-- Witness for the amended C2: a submission whose signature matches only
the legacy-schema reconstruction (`1` output field after removing the
conf-typed one, against `2` for the current schema) is accepted. -/
theorem claim_C2_witness : ∃ e, create c2wenv c2wargs = Outcome.ok e :=
  (claim_C2 c2wenv c2wargs c2wctx [("label", JVal.str "e")] "ts-nli-model"
    "sek" "1" rfl rfl rfl rfl rfl rfl rfl rfl rfl rfl rfl).mpr
    (Or.inr rfl)

/-! ## Claim C6: unmatched legacy task/output shapes -/

/-- The two legacy shapes the code rejects with the uniform failure:
QA/VQA outputs missing the required field pairs, and outputs of any other
task code missing a prob key. -/
theorem legacyPred_shape_reject (task_code : String) (o : JObj)
    (mw : Option Bool) :
    ((task_code = "qa" ∨ task_code = "vqa") →
      (task_code = "qa" ∨ jlookup o "answer" = none
        ∨ jlookup o "prob" = none) →
      (jlookup o "model_is_correct" = none ∨ jlookup o "text" = none) →
      legacyPred task_code o mw = .reject)
    ∧ (task_code ≠ "qa" → task_code ≠ "vqa" → jlookup o "prob" = none →
        legacyPred task_code o mw = .reject) := by
  constructor
  · intro hqa h1 h2
    cases hmic : jlookup o "model_is_correct" <;>
      cases htxt : jlookup o "text" <;>
      cases hans : jlookup o "answer" <;>
      cases hprob : jlookup o "prob" <;>
      rcases hqa with hq | hq <;> subst hq <;>
      unfold legacyPred <;>
      simp_all
  · intro hq hv hprob
    unfold legacyPred
    have hb : (task_code == "qa" || task_code == "vqa") = false := by
      simp [hq, hv]
    simp [hb, hprob]

/-- C6 (amended): on the legacy path, a QA/VQA submission whose output
misses the required field pairs, or a non-QA/VQA submission whose output
has no prob key, is rejected with the uniform failure before any
signature comparison.  (A task code outside qa, vqa, nli, sentiment and
hs whose output does contain a prob key instead raises an unbound-local
error — see the counterexample.) -/
theorem claim_C6 (env : Env) (a : Args) (c : ContextRec) (o : JObj)
    (en : String)
    (hc : env.context = some c) (ho : a.output = some o)
    (hen : a.model_endpoint_name = some en)
    (hts : strStartsWith en "ts" = false)
    (hturk : (a.uid == "turk" && (jlookup a.metadata "annotator_id").isNone)
      = false)
    (hid : (a.tid == c.round.task.id && a.rid == c.round.rid) = true)
    (hs1 : env.verify_annot (jmerge c.context_json a.input) = true)
    (hs2 : env.verify_annot (jmerge (jmerge c.context_json a.input) o)
      = true) :
    ((c.round.task.task_code = "qa" ∨ c.round.task.task_code = "vqa") →
      (c.round.task.task_code = "qa" ∨ jlookup o "answer" = none
        ∨ jlookup o "prob" = none) →
      (jlookup o "model_is_correct" = none ∨ jlookup o "text" = none) →
      create env a = .reject)
    ∧ (c.round.task.task_code ≠ "qa" → c.round.task.task_code ≠ "vqa" →
        jlookup o "prob" = none → create env a = .reject) := by
  constructor
  · intro hqa h1 h2
    rw [create_legacy_eq env a c o en hc ho hen hts,
      (legacyPred_shape_reject c.round.task.task_code o a.model_wrong).1
        hqa h1 h2]
    simp [hturk, hid, hs1, hs2]
  · intro hq hv hp
    rw [create_legacy_eq env a c o en hc ho hen hts,
      (legacyPred_shape_reject c.round.task.task_code o a.model_wrong).2
        hq hv hp]
    simp [hturk, hid, hs1, hs2]

/-- Context of a task code outside the five legacy shapes. -/
def c6xctx : ContextRec :=
  { round := { task := { id := 8, task_code := "qqp",
                         annotation_config := { context := [], output := [] } }
               rid := 3, secret := "zz" }
    context_json := [("sentence1", JVal.str "s1")] }

def c6xenv : Env :=
  { context := some c6xctx
    verify_annot := fun _ => true
    convert_to_model_fmt := fun d => d
    genSig := fun _ _ _ _ => ""
    model_secret := none
    persistOk := true }

def c6xargs : Args :=
  { tid := 8, rid := 3, uid := "u2"
    input := [("sentence2", JVal.str "s2")]
    output := some [("prob", JVal.num "0.5")]
    model_signature := some "anything"
    metadata := []
    model_wrong := none
    tag := none
    model_endpoint_name := some "legacy-qqp" }

/-- Counterexample to C6 as stated: a non-enumerated task code (qqp)
whose output does contain a prob key is not rejected with the uniform
failure — the local prediction variable is never assigned and `create`
raises an unbound-local error before any signature comparison. -/
theorem claim_C6_counterexample :
    create c6xenv c6xargs = Outcome.exn PyErr.unboundLocal
    ∧ create c6xenv c6xargs ≠ Outcome.reject :=
  ⟨rfl, fun h => Outcome.noConfusion h⟩

/-- A QA submission missing the model_is_correct/text pair. -/
def c6wargs1 : Args :=
  { tid := 4, rid := 2, uid := "u9"
    input := [("question", JVal.str "who")]
    output := some [("answer", JVal.str "x")]
    model_signature := some "s"
    metadata := []
    model_wrong := none
    tag := none
    model_endpoint_name := some "bespoke" }

/-- A non-QA/VQA submission with no prob key. -/
def c6wargs2 : Args :=
  { tid := 8, rid := 3, uid := "u2"
    input := [("sentence2", JVal.str "s2")]
    output := some [("foo", JVal.num "1")]
    model_signature := some "s"
    metadata := []
    model_wrong := none
    tag := none
    model_endpoint_name := some "legacy-qqp" }

/-- Witness for the amended C6: both uniform-failure shapes evaluate to
the uniform failure on concrete inputs. -/
theorem claim_C6_witness :
    create c10envB c6wargs1 = Outcome.reject
    ∧ create c6xenv c6wargs2 = Outcome.reject :=
  ⟨(claim_C6 c10envB c6wargs1 c10ctxB [("answer", JVal.str "x")] "bespoke"
      rfl rfl rfl rfl rfl rfl rfl rfl).1
      (Or.inl rfl) (Or.inl rfl) (Or.inl rfl),
   (claim_C6 c6xenv c6wargs2 c6xctx [("foo", JVal.num "1")] "legacy-qqp"
      rfl rfl rfl rfl rfl rfl rfl rfl).2
      (by decide) (by decide) rfl⟩

/-! ## Claim C3: uniform boolean-false rejection -/

/-- C3 (amended): each enumerated rejection cause — missing worker id,
context round/task mismatch, user or model schema failure, a signature
mismatch under either scheme, an unmatched legacy shape of the two
uniform-failure kinds, and a persistence failure — returns the single
uniform failure value, carrying no information about the cause.  (The
exception: an unrecognized legacy task code whose output contains a prob
key raises instead of returning the failure value — see the
counterexample.) -/
theorem claim_C3 :
    (∀ env a,
      (a.uid == "turk" && (jlookup a.metadata "annotator_id").isNone) = true →
      create env a = .reject)
    ∧ (∀ env a c, env.context = some c →
        (a.uid == "turk" && (jlookup a.metadata "annotator_id").isNone)
          = false →
        (a.tid == c.round.task.id && a.rid == c.round.rid) = false →
        create env a = .reject)
    ∧ (∀ env a c, env.context = some c →
        (a.uid == "turk" && (jlookup a.metadata "annotator_id").isNone)
          = false →
        (a.tid == c.round.task.id && a.rid == c.round.rid) = true →
        env.verify_annot (jmerge c.context_json a.input) = false →
        create env a = .reject)
    ∧ (∀ env a c o, env.context = some c → a.output = some o →
        (a.uid == "turk" && (jlookup a.metadata "annotator_id").isNone)
          = false →
        (a.tid == c.round.task.id && a.rid == c.round.rid) = true →
        env.verify_annot (jmerge c.context_json a.input) = true →
        env.verify_annot (jmerge (jmerge c.context_json a.input) o) = false →
        create env a = .reject)
    ∧ (∀ env a c o en secret sig, env.context = some c → a.output = some o →
        a.model_endpoint_name = some en → strStartsWith en "ts" = true →
        (a.uid == "turk" && (jlookup a.metadata "annotator_id").isNone)
          = false →
        (a.tid == c.round.task.id && a.rid == c.round.rid) = true →
        env.verify_annot (jmerge c.context_json a.input) = true →
        env.verify_annot (jmerge (jmerge c.context_json a.input) o) = true →
        env.model_secret = some secret →
        a.model_signature = some sig →
        sig ≠ env.genSig c.round.task.annotation_config
          c.round.task.task_code
          (env.convert_to_model_fmt (jmerge (jmerge c.context_json a.input) o))
          secret →
        sig ≠ env.genSig
          (legacyAnnotationConfig c.round.task.task_code
            c.round.task.annotation_config)
          c.round.task.task_code
          (env.convert_to_model_fmt (jmerge (jmerge c.context_json a.input) o))
          secret →
        create env a = .reject)
    ∧ (∀ env a c o en predS mw hyp, env.context = some c → a.output = some o →
        a.model_endpoint_name = some en → strStartsWith en "ts" = false →
        (a.uid == "turk" && (jlookup a.metadata "annotator_id").isNone)
          = false →
        (a.tid == c.round.task.id && a.rid == c.round.rid) = true →
        env.verify_annot (jmerge c.context_json a.input) = true →
        env.verify_annot (jmerge (jmerge c.context_json a.input) o) = true →
        legacyPred c.round.task.task_code o a.model_wrong
          = .ok (some predS) mw →
        (a.input.map Prod.snd).head? = some hyp →
        verify_signature a.model_signature c hyp predS = .ok false →
        create env a = .reject)
    ∧ (∀ env a c o en, env.context = some c → a.output = some o →
        a.model_endpoint_name = some en → strStartsWith en "ts" = false →
        (a.uid == "turk" && (jlookup a.metadata "annotator_id").isNone)
          = false →
        (a.tid == c.round.task.id && a.rid == c.round.rid) = true →
        env.verify_annot (jmerge c.context_json a.input) = true →
        env.verify_annot (jmerge (jmerge c.context_json a.input) o) = true →
        legacyPred c.round.task.task_code o a.model_wrong = .reject →
        create env a = .reject)
    ∧ (∀ env a c, env.context = some c →
        a.model_signature = none → a.model_wrong = none →
        a.model_endpoint_name = none → a.output = none →
        (a.uid == "turk" && (jlookup a.metadata "annotator_id").isNone)
          = false →
        (a.tid == c.round.task.id && a.rid == c.round.rid) = true →
        env.verify_annot (jmerge c.context_json a.input) = true →
        env.persistOk = false →
        create env a = .reject) := by
  refine ⟨?_, ?_, ?_, ?_, ?_, ?_, ?_, ?_⟩
  · intro env a h
    unfold create
    rw [h]
    rfl
  · intro env a c hc hturk hid
    unfold create
    rw [hc]
    simp [hturk, hid]
  · intro env a c hc hturk hid hva
    unfold create
    rw [hc]
    simp [hturk, hid, hva]
  · intro env a c o hc ho hturk hid hs1 hs2
    unfold create
    rw [hc, ho]
    simp [hturk, hid, hs1, hs2]
  · intro env a c o en secret sig hc ho hen hts hturk hid hs1 hs2 hsec hsig
      hn1 hn2
    rw [create_delegated_eq env a c o en hc ho hen hts]
    simp [hturk, hid, hs1, hs2, hsec, hsig, hn1, hn2]
  · intro env a c o en predS mw hyp hc ho hen hts hturk hid hs1 hs2 hlp hhd
      hver
    rw [create_legacy_eq env a c o en hc ho hen hts, hlp, hhd]
    simp [hturk, hid, hs1, hs2, hver]
  · intro env a c o en hc ho hen hts hturk hid hs1 hs2 hlp
    rw [create_legacy_eq env a c o en hc ho hen hts, hlp]
    simp [hturk, hid, hs1, hs2]
  · intro env a c hc hsig hmw hend hout hturk hid hs1 hper
    rw [create_human_eq env a c hc hsig hmw hend hout]
    simp [hturk, hid, hs1, persistExample, hper]

/-- Context of the machine-translation-style task used to refute the
uniform-failure claim. -/
def c3xctx : ContextRec :=
  { round := { task := { id := 9, task_code := "mt",
                         annotation_config := { context := [], output := [] } }
               rid := 3, secret := "zz" }
    context_json := [("source", JVal.str "text")] }

def c3xenv : Env :=
  { context := some c3xctx
    verify_annot := fun _ => true
    convert_to_model_fmt := fun d => d
    genSig := fun _ _ _ _ => ""
    model_secret := none
    persistOk := true }

def c3xargs : Args :=
  { tid := 9, rid := 3, uid := "u2"
    input := [("target", JVal.str "t")]
    output := some [("prob", JVal.num "0.5")]
    model_signature := some "whatever"
    metadata := []
    model_wrong := none
    tag := none
    model_endpoint_name := some "legacy-mt" }

/-- Counterexample to C3 as stated: the rejection cause "unrecognized
legacy task/output shape" is not always returned as the uniform failure —
an mt-task submission whose output has a prob key makes `create` raise an
unbound-local error instead of returning the failure value. -/
theorem claim_C3_counterexample :
    create c3xenv c3xargs = Outcome.exn PyErr.unboundLocal
    ∧ create c3xenv c3xargs ≠ Outcome.reject :=
  ⟨rfl, fun h => Outcome.noConfusion h⟩

/-- Args instances exercising each conjunct of `claim_C3`. -/
def c3w1args : Args :=
  { c5wargs with uid := "turk" }

def c3w2args : Args :=
  { c5wargs with tid := 2 }

def c3wenvF : Env :=
  { c5env with verify_annot := fun _ => false }

def c3wenvM : Env :=
  { c5env with verify_annot := fun d => (jlookup d "label").isNone }

def c3w4args : Args :=
  { c5wargs with output := some [("label", JVal.str "e")],
                 model_signature := some "s" }

def c3w5args : Args :=
  { c2wargs with model_signature := some "9" }

def c3w6args : Args :=
  { c10argsA with model_signature := some "bad" }

def c3w7args : Args :=
  { c10argsB with output := some [] }

def c3wenvP : Env :=
  { c5env with persistOk := false }

/-- Witness for the amended C3: all eight enumerated causes evaluate to
the same uniform failure value on concrete inputs. -/
theorem claim_C3_witness :
    create c5env c3w1args = Outcome.reject
    ∧ create c5env c3w2args = Outcome.reject
    ∧ create c3wenvF c5wargs = Outcome.reject
    ∧ create c3wenvM c3w4args = Outcome.reject
    ∧ create c2wenv c3w5args = Outcome.reject
    ∧ create c10envA c3w6args = Outcome.reject
    ∧ create c10envB c3w7args = Outcome.reject
    ∧ create c3wenvP c5wargs = Outcome.reject :=
  ⟨claim_C3.1 c5env c3w1args rfl,
   claim_C3.2.1 c5env c3w2args c5ctx rfl rfl rfl,
   claim_C3.2.2.1 c3wenvF c5wargs c5ctx rfl rfl rfl rfl,
   claim_C3.2.2.2.1 c3wenvM c3w4args c5ctx [("label", JVal.str "e")]
     rfl rfl rfl rfl rfl rfl,
   claim_C3.2.2.2.2.1 c2wenv c3w5args c2wctx [("label", JVal.str "e")]
     "ts-nli-model" "sek" "9" rfl rfl rfl rfl rfl rfl rfl rfl rfl rfl
     (by decide) (by decide),
   claim_C3.2.2.2.2.2.1 c10envA c3w6args c10ctxA
     [("answer", JVal.str "cat"), ("prob", JVal.num "0.9")] "legacy"
     "cat|0.9" (some false) (JVal.str "why")
     rfl rfl rfl rfl rfl rfl rfl rfl rfl rfl rfl,
   claim_C3.2.2.2.2.2.2.1 c10envB c3w7args c10ctxB [] "bespoke"
     rfl rfl rfl rfl rfl rfl rfl rfl rfl,
   claim_C3.2.2.2.2.2.2.2 c3wenvP c5wargs c5ctx
     rfl rfl rfl rfl rfl rfl rfl rfl rfl⟩

/-! ## Ordering infrastructure for the retrieval claims -/

theorem mem_insertLe (le : α → α → Bool) (x a : α) (l : List α) :
    a ∈ insertLe le x l ↔ a = x ∨ a ∈ l := by
  induction l with
  | nil => simp [insertLe]
  | cons y ys ih =>
    unfold insertLe
    split
    · simp [List.mem_cons]
    · simp only [List.mem_cons, ih]
      tauto

theorem mem_sortByLe (le : α → α → Bool) (a : α) (l : List α) :
    a ∈ sortByLe le l ↔ a ∈ l := by
  induction l with
  | nil => simp [sortByLe]
  | cons x xs ih => simp [sortByLe, mem_insertLe, ih]

theorem pairwise_insertLe (le : α → α → Bool)
    (htot : ∀ a b, le a b = false → le b a = true)
    (htrans : ∀ a b c, le a b = true → le b c = true → le a c = true)
    (x : α) (l : List α)
    (hl : l.Pairwise (fun a b => le a b = true)) :
    (insertLe le x l).Pairwise (fun a b => le a b = true) := by
  induction l with
  | nil => simp [insertLe]
  | cons y ys ih =>
    rw [List.pairwise_cons] at hl
    obtain ⟨hy, hys⟩ := hl
    unfold insertLe
    split
    · rename_i h
      rw [List.pairwise_cons]
      refine ⟨?_, ?_⟩
      · intro b hb
        rcases List.mem_cons.mp hb with rfl | hb
        · exact h
        · exact htrans x y b h (hy b hb)
      · rw [List.pairwise_cons]
        exact ⟨hy, hys⟩
    · rename_i h
      have hf : le x y = false := by
        cases hxy : le x y
        · rfl
        · exact absurd hxy h
      rw [List.pairwise_cons]
      refine ⟨?_, ih hys⟩
      intro b hb
      rcases (mem_insertLe le x b ys).mp hb with rfl | hb
      · exact htot _ y hf
      · exact hy b hb

theorem pairwise_sortByLe (le : α → α → Bool)
    (htot : ∀ a b, le a b = false → le b a = true)
    (htrans : ∀ a b c, le a b = true → le b c = true → le a c = true)
    (l : List α) :
    (sortByLe le l).Pairwise (fun a b => le a b = true) := by
  induction l with
  | nil => simp [sortByLe]
  | cons x xs ih => exact pairwise_insertLe le htot htrans x _ ih

theorem tupLe_iff (a b : Nat × Nat × Nat × Nat) :
    tupLe a b = true ↔
      (a.1 < b.1 ∨ (a.1 = b.1 ∧ (a.2.1 < b.2.1 ∨ (a.2.1 = b.2.1 ∧
        (a.2.2.1 < b.2.2.1 ∨ (a.2.2.1 = b.2.2.1
          ∧ a.2.2.2 ≤ b.2.2.2)))))) := by
  unfold tupLe
  split_ifs <;> simp_all <;> omega

theorem tupLe_total (a b : Nat × Nat × Nat × Nat) (h : tupLe a b = false) :
    tupLe b a = true := by
  have h' : ¬(tupLe a b = true) := by
    rw [h]
    simp
  rw [tupLe_iff] at h'
  rw [tupLe_iff]
  omega

theorem tupLe_trans (a b c : Nat × Nat × Nat × Nat)
    (h1 : tupLe a b = true) (h2 : tupLe b c = true) : tupLe a c = true := by
  rw [tupLe_iff] at h1 h2 ⊢
  omega

/-- The ordering the spec promises on retrieval results: an example with
model_wrong false never precedes one with model_wrong true, and among
examples of equal model_wrong status the total-verified counts are
non-decreasing. -/
def claimOrder (a b : ExampleRow) : Prop :=
  (¬(a.model_wrong = some false ∧ b.model_wrong = some true))
  ∧ (a.model_wrong = b.model_wrong → a.total_verified ≤ b.total_verified)

theorem tupLe_exKey_claimOrder (rnd : Nat → Nat) (a b : ExampleRow)
    (h : tupLe (exKey rnd a) (exKey rnd b) = true) : claimOrder a b := by
  rw [tupLe_iff] at h
  simp only [exKey] at h
  constructor
  · rintro ⟨hfa, hfb⟩
    rw [hfa, hfb] at h
    simp [mwKey] at h
  · intro hmw
    rw [hmw] at h
    omega

theorem orderAndLimit_pairwise (rnd : Nat → Nat) (n : Nat)
    (l : List ExampleRow) :
    (orderAndLimit rnd n l).Pairwise claimOrder := by
  unfold orderAndLimit
  have hs := pairwise_sortByLe
    (fun a b => tupLe (exKey rnd a) (exKey rnd b))
    (fun a b h => tupLe_total _ _ h)
    (fun a b c h1 h2 => tupLe_trans _ _ _ h1 h2) l
  have hc := List.Pairwise.imp
    (fun {a b} h => tupLe_exKey_claimOrder rnd a b h) hs
  exact List.Pairwise.sublist (List.take_sublist n _) hc

theorem mem_orderAndLimit (rnd : Nat → Nat) (n : Nat) (l : List ExampleRow)
    (e : ExampleRow) (h : e ∈ orderAndLimit rnd n l) : e ∈ l := by
  unfold orderAndLimit at h
  exact (mem_sortByLe _ e l).mp (List.take_subset n _ h)

theorem mem_sqlUnion (e : ExampleRow) (l1 l2 : List ExampleRow) :
    e ∈ sqlUnion l1 l2 ↔ e ∈ l1 ∨ e ∈ l2 := by
  simp [sqlUnion]

/-! ## Claim C8: fooled-first, fewest-verified-first ordering -/

/-- Scenario example A: model fooled, three completed validations. -/
def c8exA : ExampleRow :=
  { id := 1, cid := 1, uid := none, tag := none, model_wrong := some true,
    retracted := false, total_verified := 3 }

/-- Scenario example B: model not fooled, zero completed validations. -/
def c8exB : ExampleRow :=
  { id := 2, cid := 1, uid := none, tag := none, model_wrong := some false,
    retracted := false, total_verified := 0 }

/-- Scenario example C: model fooled, one completed validation. -/
def c8exC : ExampleRow :=
  { id := 3, cid := 1, uid := none, tag := none, model_wrong := some true,
    retracted := false, total_verified := 1 }

/-- The scenario store: A, B, C in one round, no validations yet. -/
def c8db : DB :=
  { examples := [c8exA, c8exB, c8exC]
    contexts := [{ id := 1, r_realid := 7 }]
    validations := [] }

/-- C8: every result of either retrieval query is ordered fooled-first and
then by ascending total-verified count within equal model_wrong status,
for every random tie-break; and on the concrete A/B/C scenario a
single-item request returns C. -/
theorem claim_C8 :
    (∀ db rid vnf k n mu tags rnd,
      (getRandom db rid vnf k n mu tags rnd).Pairwise claimOrder)
    ∧ (∀ db rid mf xf md xd vnf n tags rnd,
      (getRandomFiltered db rid mf xf md xd vnf n tags rnd).Pairwise
        claimOrder)
    ∧ (∀ rnd, getRandom c8db 7 true 5 1 none none rnd = [c8exC]) := by
  refine ⟨?_, ?_, ?_⟩
  · intro db rid vnf k n mu tags rnd
    exact orderAndLimit_pairwise rnd n _
  · intro db rid mf xf md xd vnf n tags rnd
    exact orderAndLimit_pairwise rnd n _
  · intro rnd
    rfl

/-! ## Claim C4: retrieval exclusion invariants -/

theorem cntOwner_zero (vs : List ValidationRow) (h : cntOwner vs = 0) :
    ∀ v ∈ vs, v.mode ≠ VMode.owner := by
  intro v hv hmode
  unfold cntOwner at h
  rw [List.length_eq_zero, List.filter_eq_nil_iff] at h
  exact h v hv (by simp [hmode])

theorem cntUid_zero (vs : List ValidationRow) (u : Nat)
    (h : cntUid vs u = 0) : ∀ v ∈ vs, v.uid ≠ u := by
  intro v hv huid
  unfold cntUid at h
  rw [List.length_eq_zero, List.filter_eq_nil_iff] at h
  exact h v hv (by simp [huid])

/-- C4: neither retrieval query ever returns a retracted example or an
example carrying an owner-mode validation; and when a requesting user id
is supplied to `getRandom`, the result never contains an example that
user authored or one that user already validated. -/
theorem claim_C4 :
    (∀ db rid vnf k n mu tags rnd e,
      e ∈ getRandom db rid vnf k n mu tags rnd →
      e.retracted = false
      ∧ (∀ v ∈ valsOf db e, v.mode ≠ VMode.owner)
      ∧ (∀ u, mu = some u → e.uid ≠ some u
          ∧ ∀ v ∈ valsOf db e, v.uid ≠ u))
    ∧ (∀ db rid mf xf md xd vnf n tags rnd e,
      e ∈ getRandomFiltered db rid mf xf md xd vnf n tags rnd →
      e.retracted = false
      ∧ (∀ v ∈ valsOf db e, v.mode ≠ VMode.owner)) := by
  constructor
  · intro db rid vnf k n mu tags rnd e he
    unfold getRandom at he
    have hpool := mem_orderAndLimit rnd n _ e he
    unfold getRandomPool at hpool
    rw [List.mem_filter] at hpool
    obtain ⟨hun, huid⟩ := hpool
    rw [mem_sqlUnion] at hun
    have hbase : baseFilter db rid vnf tags e = true := by
      rcases hun with h | h <;>
      · rw [List.mem_filter] at h
        have h2 := h.1
        rw [List.mem_filter] at h2
        exact h2.2
    have hret : e.retracted = false := by
      unfold baseFilter at hbase
      simp only [Bool.and_eq_true, and_assoc, Bool.not_eq_true'] at hbase
      exact hbase.2.1
    refine ⟨hret, ?_, ?_⟩
    · rcases hun with h | h
      · rw [List.mem_filter] at h
        have hcond := h.2
        simp only [Bool.and_eq_true, and_assoc, beq_iff_eq] at hcond
        exact cntOwner_zero _ hcond.2.2.2.2.1
      · rw [List.mem_filter] at h
        have hemp : valsOf db e = [] := by simpa using h.2
        intro v hv
        rw [hemp] at hv
        cases hv
    · intro u hu
      subst hu
      constructor
      · cases heu : e.uid with
        | none => simp
        | some b =>
          rw [heu] at huid
          simp only [Bool.not_eq_true', beq_eq_false_iff_ne] at huid
          simp [huid]
      · rcases hun with h | h
        · rw [List.mem_filter] at h
          have hcond := h.2
          simp only [Bool.and_eq_true, and_assoc, beq_iff_eq] at hcond
          exact cntUid_zero _ u hcond.2.2.2.2.2
        · rw [List.mem_filter] at h
          have hemp : valsOf db e = [] := by simpa using h.2
          intro v hv
          rw [hemp] at hv
          cases hv
  · intro db rid mf xf md xd vnf n tags rnd e he
    unfold getRandomFiltered at he
    have hpool := mem_orderAndLimit rnd n _ e he
    unfold getRandomFilteredPool at hpool
    have hsplit : (e ∈ (db.examples.filter
          (baseFilter db rid vnf tags)).filter
            (fun e => (valsOf db e).isEmpty))
        ∨ (baseFilter db rid vnf tags e = true
           ∧ cntOwner (valsOf db e) = 0) := by
      split at hpool
      · rw [mem_sqlUnion] at hpool
        rcases hpool with h | h
        · right
          rw [List.mem_filter] at h
          have hcond := h.2
          simp only [Bool.and_eq_true, and_assoc, beq_iff_eq] at hcond
          have hb := h.1
          rw [List.mem_filter] at hb
          exact ⟨hb.2, hcond.2.1⟩
        · left
          exact h
      · right
        rw [List.mem_filter] at hpool
        have hcond := hpool.2
        simp only [Bool.and_eq_true, and_assoc, beq_iff_eq] at hcond
        have hb := hpool.1
        rw [List.mem_filter] at hb
        exact ⟨hb.2, hcond.2.1⟩
    rcases hsplit with h | h
    · rw [List.mem_filter] at h
      have hb := h.1
      rw [List.mem_filter] at hb
      have hret : e.retracted = false := by
        have hbase := hb.2
        unfold baseFilter at hbase
        simp only [Bool.and_eq_true, and_assoc, Bool.not_eq_true'] at hbase
        exact hbase.2.1
      have hemp : valsOf db e = [] := by simpa using h.2
      refine ⟨hret, ?_⟩
      intro v hv
      rw [hemp] at hv
      cases hv
    · have hret : e.retracted = false := by
        have hbase := h.1
        unfold baseFilter at hbase
        simp only [Bool.and_eq_true, and_assoc, Bool.not_eq_true'] at hbase
        exact hbase.2.1
      exact ⟨hret, cntOwner_zero _ h.2⟩

/-! ## Claim C7: never-validated examples under zero thresholds -/

/-- C7: with both minimum thresholds zero, any never-validated example of
the base pool is in the `getRandomFiltered` candidate pool; with either
minimum strictly positive, every returned example carries at least one
validation. -/
theorem claim_C7 :
    (∀ db rid xf xd vnf tags e,
      e ∈ db.examples →
      baseFilter db rid vnf tags e = true →
      valsOf db e = [] →
      e ∈ getRandomFilteredPool db rid 0 xf 0 xd vnf tags)
    ∧ (∀ db rid mf xf md xd vnf n tags rnd e,
        0 < mf ∨ 0 < md →
        e ∈ getRandomFiltered db rid mf xf md xd vnf n tags rnd →
        valsOf db e ≠ []) := by
  constructor
  · intro db rid xf xd vnf tags e hmem hbf hnv
    unfold getRandomFilteredPool
    rw [if_pos (show (((0 : Int) == 0) && ((0 : Int) == 0)) = true from rfl)]
    rw [mem_sqlUnion]
    right
    rw [List.mem_filter]
    exact ⟨List.mem_filter.mpr ⟨hmem, hbf⟩, by simp [hnv]⟩
  · intro db rid mf xf md xd vnf n tags rnd e hpos he
    unfold getRandomFiltered at he
    have hpool := mem_orderAndLimit rnd n _ e he
    unfold getRandomFilteredPool at hpool
    have hcond : ((md == 0) && (mf == 0)) = false := by
      rcases hpos with h | h
      · have hf : (mf == 0) = false := by
          rw [beq_eq_false_iff_ne]
          omega
        simp [hf]
      · have hf : (md == 0) = false := by
          rw [beq_eq_false_iff_ne]
          omega
        simp [hf]
    rw [hcond] at hpool
    simp only [Bool.false_eq_true, if_false] at hpool
    rw [List.mem_filter] at hpool
    have hc := hpool.2
    simp only [Bool.and_eq_true, and_assoc, Bool.not_eq_true'] at hc
    intro hnil
    have := hc.1
    rw [hnil] at this
    simp at this

/-- A fooled, never-validated example owned by user 5. -/
def c4ex : ExampleRow :=
  { id := 1, cid := 1, uid := some 5, tag := none, model_wrong := some true,
    retracted := false, total_verified := 0 }

def c4db : DB :=
  { examples := [c4ex]
    contexts := [{ id := 1, r_realid := 1 }]
    validations := [] }

/-- Witness for C4: a concrete result example of both queries satisfies
the exclusion invariants. -/
theorem claim_C4_witness :
    (c4ex ∈ getRandom c4db 1 true 5 1 (some 9) none (fun _ => 0)
      ∧ c4ex.retracted = false ∧ c4ex.uid ≠ some 9)
    ∧ (c4ex ∈ getRandomFiltered c4db 1 0 5 0 5 true 1 none (fun _ => 0)
      ∧ c4ex.retracted = false) := by
  have h1 : c4ex ∈ getRandom c4db 1 true 5 1 (some 9) none (fun _ => 0) := by
    decide
  have h2 : c4ex ∈ getRandomFiltered c4db 1 0 5 0 5 true 1 none
      (fun _ => 0) := by
    decide
  obtain ⟨hret, _hown, huid⟩ :=
    claim_C4.1 c4db 1 true 5 1 (some 9) none (fun _ => 0) c4ex h1
  obtain ⟨hret2, _⟩ :=
    claim_C4.2 c4db 1 0 5 0 5 true 1 none (fun _ => 0) c4ex h2
  exact ⟨⟨h1, hret, (huid 9 rfl).1⟩, ⟨h2, hret2⟩⟩

/-- The same example with one flagged validation by user 5. -/
def c7db : DB :=
  { examples := [c4ex]
    contexts := [{ id := 1, r_realid := 1 }]
    validations := [{ id := 1, eid := 1, uid := 5, label := VLabel.flagged,
                      mode := VMode.user }] }

/-- Witness for C7 at concrete inputs: the never-validated example is in
the zero-threshold pool, and a returned example under a positive flag
minimum is validated. -/
theorem claim_C7_witness :
    c4ex ∈ getRandomFilteredPool c4db 1 0 5 0 5 true none
    ∧ valsOf c7db c4ex ≠ [] :=
  ⟨claim_C7.1 c4db 1 5 5 true none c4ex (by decide) (by decide) rfl,
   claim_C7.2 c7db 1 1 5 0 5 true 1 none (fun _ => 0) c4ex
     (Or.inl (by decide)) (by decide)⟩
